import Mathlib

/-!
Verification of the document-store adapter and derived-view engine of the
"Gestor de Alta Performance com IA" backend (src/database.py, src/main.py,
src/schemas.py), as a shallow embedding in Lean 4.

Modelling conventions:
* Python dicts (Mongo documents) are association lists `List (String × Val)`
  with in-place update (`setAssoc`), matching dict assignment semantics
  (replace the existing key in place, else append).
* `datetime.now(timezone.utc)` is an explicit integer parameter: each call
  site of `now()` in the source corresponds to one explicit clock-read
  argument of the Lean function.
* `datetime.combine(d, datetime.min.time()).timestamp()` is modelled as the
  UTC epoch-seconds of midnight of `d` (`dateEpoch`, via the standard
  days-from-civil calendar algorithm).  The platform-local offset used by
  Python for naive datetimes is a bounded shift (< 1 day) that affects none
  of the stated properties: ordering of distinct days and the sign of
  `9999999 - epoch` for modern dates are invariant under it.
* Python `sorted(key=f, reverse=True)` (a stable descending sort) is
  modelled by `List.insertionSort` with the total preorder
  "key of left ≥lex key of right": both are the unique stable descending
  reordering by key.
* Exceptions raised by the adapter when `db is None` are modelled with
  `Except DBError`.
-/

namespace Gestor

/-- Calendar date (models Python `datetime.date`). -/
structure PDate where
  year : Nat
  month : Nat
  day : Nat
deriving DecidableEq, Repr

/-- Stored values appearing in documents (models the JSON/BSON values this
backend actually stores: strings, numbers, datetimes, dates, booleans and
null). -/
inductive Val where
  | null
  | str (s : String)
  | int (n : Int)
  | dt (t : Int)
  | date (d : PDate)
  | bool (b : Bool)
deriving DecidableEq, Repr

/-- A document body: an ordered association list of field name to value,
modelling a Python dict. -/
abbrev Document := List (String × Val)

/-- Python dict assignment `d[k] = v`: replace the first binding of `k` in
place, else append at the end. -/
def setAssoc : Document → String → Val → Document
  | [], k, v => [(k, v)]
  | (k', v') :: rest, k, v =>
      if k' = k then (k, v) :: rest else (k', v') :: setAssoc rest k v

/-- Python dict lookup `d.get(k)`. -/
def getAssoc : Document → String → Option Val
  | [], _ => none
  | (k', v') :: rest, k => if k' = k then some v' else getAssoc rest k

/-- Mongo `$set` application: apply each update binding in order to the
stored fields. -/
def applySet (fields : Document) (updates : Document) : Document :=
  updates.foldl (fun acc kv => setAssoc acc kv.1 kv.2) fields

/-- A stored document: the store-assigned `_id` (already normalized to a
string, per `_normalize_docs`) together with its fields. -/
structure StoredDoc where
  oid : String
  fields : Document
deriving DecidableEq, Repr

/-- The connected database: named collections of stored documents.
`db : Option Store` models the module-level `db` handle of
src/database.py, which is `None` when configuration is missing. -/
structure Store where
  colls : List (String × List StoredDoc)
deriving DecidableEq, Repr

/-- Collection access `db[collection_name]` (a missing collection is the
empty collection, as in Mongo). -/
def getColl (s : Store) (name : String) : List StoredDoc :=
  match s.colls.find? (fun e => e.1 = name) with
  | some e => e.2
  | none => []

/-- Replace the contents of one collection. -/
def setCollAux : List (String × List StoredDoc) → String → List StoredDoc →
    List (String × List StoredDoc)
  | [], k, c => [(k, c)]
  | (k', c') :: rest, k, c =>
      if k' = k then (k, c) :: rest else (k', c') :: setCollAux rest k c

/-- Store with one collection replaced. -/
def setColl (s : Store) (name : String) (c : List StoredDoc) : Store :=
  ⟨setCollAux s.colls name c⟩

/-- Error taxonomy of the adapter (src/database.py raises a plain
`Exception("Database not available...")` when `db is None`). -/
inductive DBError where
  | storeUnavailable
deriving DecidableEq, Repr

/-- Timestamp stamping of `create_document` (src/database.py lines 40-41):
`data_dict['created_at'] = datetime.now(...)` then
`data_dict['updated_at'] = datetime.now(...)` — note these are two separate
clock reads `t1` and `t2`. -/
def create_document_fields (t1 t2 : Int) (data : Document) : Document :=
  setAssoc (setAssoc data "created_at" (Val.dt t1)) "updated_at" (Val.dt t2)

/-- Append a freshly inserted document to a collection. -/
def insertDoc (s : Store) (collection_name newId : String) (fields : Document) :
    Store :=
  setColl s collection_name (getColl s collection_name ++ [⟨newId, fields⟩])

/-- Model of `create_document` (src/database.py lines 29-44): raises when the
store was never connected, otherwise stamps `created_at`/`updated_at` from
the two clock reads, inserts, and returns the store-assigned id (given here
as the explicit parameter `newId`) as a string. -/
def create_document (db : Option Store) (t1 t2 : Int) (newId : String)
    (collection_name : String) (data : Document) : Except DBError (Store × String) :=
  match db with
  | none => .error .storeUnavailable
  | some s =>
      .ok (insertDoc s collection_name newId (create_document_fields t1 t2 data), newId)

/-- Equality filter matching of Mongo `find(filter_dict)` as used by this
backend (equality on each filter field). -/
def matchesFilter (filt : Document) (d : StoredDoc) : Bool :=
  filt.all (fun kv => getAssoc d.fields kv.1 == some kv.2)

/-- Cursor limit: Python `if limit: cursor = cursor.limit(limit)` — a `None`
or `0` limit leaves the cursor unlimited. -/
def applyLimit (limit : Option Nat) (l : List StoredDoc) : List StoredDoc :=
  match limit with
  | none => l
  | some n => if n = 0 then l else l.take n

/-- Model of `get_documents` (src/database.py lines 65-72): raises when the
store was never connected, otherwise filters the collection and applies the
limit (ids are already strings in this model, per `_normalize_docs`). -/
def get_documents (db : Option Store) (collection_name : String)
    (filt : Document) (limit : Option Nat) : Except DBError (List StoredDoc) :=
  match db with
  | none => .error .storeUnavailable
  | some s => .ok (applyLimit limit ((getColl s collection_name).filter (matchesFilter filt)))

/-- First document with the given `_id` (Mongo `update_one` matches at most
one document: the first match). -/
def findDoc : List StoredDoc → String → Option StoredDoc
  | [], _ => none
  | d :: rest, doc_id => if d.oid = doc_id then some d else findDoc rest doc_id

/-- Mongo `update_one({"_id": id}, {"$set": u})` on one collection, returning
the new collection contents and `modified_count`: the first matching document
gets the update set applied; the count is 1 exactly when that application
actually changed the document. -/
def updateOne (doc_id : String) (u : Document) :
    List StoredDoc → List StoredDoc × Nat
  | [] => ([], 0)
  | d :: rest =>
      if d.oid = doc_id then
        let f' := applySet d.fields u
        (⟨d.oid, f'⟩ :: rest, if f' = d.fields then 0 else 1)
      else
        let res := updateOne doc_id u rest
        (d :: res.1, res.2)

/-- The update set actually applied by `update_document`: the caller's
updates with `updated_at` refreshed to the current clock read
(src/database.py lines 80-81: `updates = updates.copy();
updates['updated_at'] = datetime.now(...)`). -/
def appliedSet (now : Int) (updates : Document) : Document :=
  setAssoc updates "updated_at" (Val.dt now)

/-- Model of `update_document` (src/database.py lines 75-83): raises when the
store was never connected, otherwise refreshes `updated_at` and applies the
update to the first document with the given id, returning `modified_count`. -/
def update_document (db : Option Store) (now : Int)
    (collection_name doc_id : String) (updates : Document) :
    Except DBError (Store × Nat) :=
  match db with
  | none => .error .storeUnavailable
  | some s =>
      let res := updateOne doc_id (appliedSet now updates) (getColl s collection_name)
      .ok (setColl s collection_name res.1, res.2)

/-! ### Request handlers (src/main.py) -/

/-- Python string falsiness in `a or b`: `None` and `""` fall through. -/
def pyOrStr (a : Option String) (b : String) : String :=
  match a with
  | none => b
  | some s => if s = "" then b else s

/-- Python `email.split("@")[0]`: the first split piece is exactly the
longest prefix before the first `@` (the whole string when there is none). -/
def emailLocal (email : String) : String :=
  ⟨email.data.takeWhile (fun c => c ≠ '@')⟩

/-- Login request body (src/main.py lines 25-27). -/
structure LoginRequest where
  email : String
  name : Option String
deriving DecidableEq, Repr

/-- Login response body (src/main.py lines 29-32). -/
structure LoginResponse where
  token : String
  user_id : String
  name : String
deriving DecidableEq, Repr

/-- Name stored for a user document, when present and a string. -/
def docName (d : StoredDoc) : Option String :=
  match getAssoc d.fields "name" with
  | some (Val.str s) => some s
  | _ => none

/-- Model of the `login` handler (src/main.py lines 41-50).  Both the
`find_one` read and the `create_document` call are guarded by
`if db is not None`, so the handler never raises on a missing store: with
`db = None` it reads nothing, creates nothing, and still returns a response.
`t1 t2` are the clock reads and `newId` the store-assigned id of the user
document created when the email is new. -/
def login (db : Option Store) (t1 t2 : Int) (newId : String)
    (payload : LoginRequest) : Option Store × LoginResponse :=
  let user_id := payload.email
  let existing : Option StoredDoc :=
    match db with
    | none => none
    | some s => (getColl s "user").find?
        (fun d => getAssoc d.fields "email" == some (Val.str payload.email))
  let db' : Option Store :=
    match existing, db with
    | none, some s =>
        let data : Document :=
          [("name", Val.str (pyOrStr payload.name (emailLocal payload.email))),
           ("email", Val.str payload.email)]
        some (insertDoc s "user" newId (create_document_fields t1 t2 data))
    | _, _ => db
  let resolved_name :=
    pyOrStr payload.name
      (pyOrStr (existing.bind docName) (emailLocal payload.email))
  (db', ⟨user_id, user_id, resolved_name⟩)

/-- PATCH /events/{id} request body (src/main.py lines 95-100): all fields
optional. -/
structure EventUpdate where
  start_time : Option Int
  end_time : Option Int
  title : Option String
  location : Option String
  category : Option String
deriving DecidableEq, Repr

/-- The payload with every field null. -/
def EventUpdate.allNone : EventUpdate := ⟨none, none, none, none, none⟩

/-- An optional payload field as the stored value it dumps to (`None` dumps
to null). -/
def optVal {α : Type} (f : α → Val) : Option α → Val
  | some v => f v
  | none => Val.null

/-- Result of `payload.model_dump()` for an `EventUpdate`: every declared
field, null-valued where the payload gave none. -/
def EventUpdate.dumpPairs (p : EventUpdate) : List (String × Val) :=
  [("start_time", optVal Val.dt p.start_time),
   ("end_time", optVal Val.dt p.end_time),
   ("title", optVal Val.str p.title),
   ("location", optVal Val.str p.location),
   ("category", optVal Val.str p.category)]

/-- The dict comprehension of src/main.py line 104:
`{k: v for k, v in payload.model_dump().items() if v is not None}`. -/
def eventUpdateFields (p : EventUpdate) : Document :=
  (EventUpdate.dumpPairs p).filter (fun kv => !(kv.2 == Val.null))

/-- Outcome of the PATCH /events/{id} handler: HTTP 200 body or the
404 `HTTPException("Event not found or unchanged")`. -/
inductive UpdResult where
  | ok (id : String)
  | notFound
deriving DecidableEq, Repr

/-- Model of the `update_event` handler (src/main.py lines 102-107): drop
null payload fields, delegate to `update_document`, and raise the 404 signal
exactly when the modified count is 0. -/
def update_event (db : Option Store) (now : Int) (event_id : String)
    (payload : EventUpdate) : Except DBError (Store × UpdResult) :=
  match update_document db now "event" event_id (eventUpdateFields payload) with
  | .error e => .error e
  | .ok (s, modified) =>
      .ok (s, if modified = 0 then UpdResult.notFound else UpdResult.ok event_id)

/-! ### Derived-view engine: task prioritization (src/main.py lines 233-246) -/

/-- Python `str.lower()`, character by character (the trigger phrases and
priority keywords compared in this backend are ASCII, where per-character
`Char.toLower` agrees with Python's lowercasing). -/
def pyLower (s : String) : String := ⟨s.data.map Char.toLower⟩

/-- Days since 1970-01-01 of a civil date (standard days-from-civil
algorithm); used to model `datetime.timestamp()` of midnight UTC. -/
def daysFromCivil (y m d : Nat) : Int :=
  let y' := if m ≤ 2 then y - 1 else y
  let era := y' / 400
  let yoe := y' % 400
  let doy := (153 * (if m > 2 then m - 3 else m + 9) + 2) / 5 + d - 1
  let doe := yoe * 365 + yoe / 4 - yoe / 100 + doy
  (era * 146097 + doe : Int) - 719468

/-- Epoch seconds of midnight of a date: models
`int(datetime.combine(d, datetime.min.time()).timestamp())` (see the header
note on the timezone of naive datetimes). -/
def dateEpoch (d : PDate) : Int :=
  86400 * daysFromCivil d.year d.month d.day

/-- A task document as fetched for prioritization/dashboard (fields used by
the derived views; `_id` already a string). -/
structure TaskDoc where
  oid : String
  title : String
  priority : Option String
  due_date : Option PDate
deriving DecidableEq, Repr

/-- The priority-weight dict lookup
`{"urgent": 4, "high": 3, "medium": 2, "low": 1}.get(key, 2)`. -/
def prio_weight (p : String) : Int :=
  if p = "urgent" then 4
  else if p = "high" then 3
  else if p = "medium" then 2
  else if p = "low" then 1
  else 2

/-- The sort key of `ai_prioritize.score` (src/main.py lines 239-243):
primary = priority weight of `(t.get("priority") or "medium").lower()`,
secondary = `0` when there is no due date, else
`9999999 - int(datetime.combine(due_date, min.time()).timestamp())`. -/
def score (t : TaskDoc) : Int × Int :=
  (prio_weight (pyLower (match t.priority with
     | none => "medium"
     | some p => if p = "" then "medium" else p)),
   match t.due_date with
   | none => 0
   | some d => 9999999 - dateEpoch d)

/-- Lexicographic ≤ on sort keys, as Python compares the score tuples. -/
def keyLeB (a b : Int × Int) : Bool :=
  decide (a.1 < b.1) || (decide (a.1 = b.1) && decide (a.2 ≤ b.2))

/-- The sort relation of `sorted(tasks, key=score, reverse=True)`: `a`
precedes `b` when `score a ≥lex score b`; a stable sort under this total
preorder is exactly Python's stable descending sort by key. -/
def taskGe (a b : TaskDoc) : Prop := keyLeB (score b) (score a) = true

instance : DecidableRel taskGe :=
  fun a b => Bool.decEq (keyLeB (score b) (score a)) true

/-- The projection of src/main.py line 245:
`{"_id": str(...), "title": ..., "priority": ..., "due_date": ...}`. -/
structure TaskOut where
  oid : String
  title : String
  priority : Option String
  due_date : Option PDate
deriving DecidableEq, Repr

/-- Projection of one ordered task into the response shape. -/
def projTask (t : TaskDoc) : TaskOut := ⟨t.oid, t.title, t.priority, t.due_date⟩

/-- The descending stable sort of src/main.py line 244. -/
def prioritizedTasks (tasks : List TaskDoc) : List TaskDoc :=
  List.insertionSort taskGe tasks

/-- Model of the `/ai/prioritize` computation (src/main.py lines 236-246)
on the store-returned task list: stable descending sort by `score`, then the
first 7, projected.  (The audit insert of line 235 is a store write with no
bearing on the returned order.) -/
def ai_prioritize (tasks : List TaskDoc) : List TaskOut :=
  ((prioritizedTasks tasks).take 7).map projTask

/-! ### Derived-view engine: dashboard (src/main.py lines 277-311) -/

/-- A contact document as fetched for the dashboard (fields used). -/
structure ContactDoc where
  name : String
  birthday : Option PDate
deriving DecidableEq, Repr

/-- An energy health-log document as fetched for the dashboard: the
dashboard reads its `"value"` field (guaranteed present by the HealthLog
schema), passed through unchanged. -/
structure HealthDoc where
  value : Val
deriving DecidableEq, Repr

/-- One dashboard alert: `{"type": "birthday", "name": ...}` or
`{"type": "deadline", "title": ...}`. -/
inductive Alert where
  | birthday (name : String)
  | deadline (title : String)
deriving DecidableEq, Repr

/-- The birthday test of src/main.py lines 289-291: the contact has a
birthday (`if b and isinstance(b, date)`) whose month and day match today. -/
def birthdayToday (today : PDate) (c : ContactDoc) : Bool :=
  match c.birthday with
  | some b => b.month == today.month && b.day == today.day
  | none => false

/-- The deadline test of src/main.py line 295: `t.get("due_date") == today`. -/
def dueToday (today : PDate) (t : TaskDoc) : Bool :=
  t.due_date == some today

/-- The three hardcoded recommendation strings (src/main.py lines 298-302). -/
def dashboardRecommendations : List String :=
  ["Foca nas 3 prioridades: proposta X, revisão OKRs, treino leve",
   "Agenda um bloco de foco de 90min às 9:00",
   "Hidrata-te: 2 copos de água agora"]

/-- The dashboard response shape (src/main.py lines 304-311). -/
structure DashboardResponse where
  tasks : List TaskDoc
  events : List Document
  habits : List Document
  energy : Val
  alerts : List Alert
  recommendations : List String
deriving Repr

/-- Model of the `/dashboard` aggregation (src/main.py lines 277-311) on the
five store-returned lists: scan contacts appending a birthday alert per
month+day match, then scan tasks appending a deadline alert per
due-date-is-today match; energy is `health_today[-1]["value"]` or the
default `70`; alerts are truncated to the first 5 in the response. -/
def dashboard (today : PDate) (tasks : List TaskDoc)
    (events habits : List Document) (health_today : List HealthDoc)
    (contacts : List ContactDoc) : DashboardResponse :=
  let alerts1 := contacts.foldl
    (fun acc c => if birthdayToday today c then acc ++ [Alert.birthday c.name] else acc) []
  let alerts := tasks.foldl
    (fun acc t => if dueToday today t then acc ++ [Alert.deadline t.title] else acc) alerts1
  { tasks := tasks
    events := events
    habits := habits
    energy := match health_today.getLast? with
      | some h => h.value
      | none => Val.int 70
    alerts := alerts.take 5
    recommendations := dashboardRecommendations }

/-! ### Keyword-matched response endpoint /ai/center (src/main.py 202-217) -/

/-- Contiguous-sublist occurrence check on character lists. -/
def isSubList : List Char → List Char → Bool
  | pat, [] => pat.isEmpty
  | pat, c :: rest => List.isPrefixOf pat (c :: rest) || isSubList pat rest

/-- Python substring membership `pat in s`. -/
def containsSub (s pat : String) : Bool :=
  isSubList pat.data s.data

/-- Request body of the AI endpoints (src/main.py lines 198-200). -/
structure AICommand where
  user_id : String
  prompt : String
deriving DecidableEq, Repr

/-- An AIRequest audit document (schemas.py `AIRequest`), as appended by the
AI endpoints. -/
structure AIRequestDoc where
  user_id : String
  kind : String
  parameters : List (String × String)
deriving DecidableEq, Repr

/-- The five response shapes of `/ai/center`. -/
inductive CenterResponse where
  | plan (s : String)
  | mealPlan (s : String)
  | priorities (l : List String)
  | review (s : String)
  | message (s : String)
deriving DecidableEq, Repr

/-- The canned week-reorganization plan string (src/main.py line 209). -/
def weekPlanStr : String :=
  "Reorganizei a tua semana com blocos de foco nas manhãs e reuniões à tarde, priorizando tarefas urgentes e alinhadas com os teus objetivos."

/-- The generic fallback message (src/main.py line 217). -/
def fallbackStr : String :=
  "Pedido recebido. Em breve, respostas mais inteligentes com base nos teus dados."

/-- Model of the `/ai/center` handler (src/main.py lines 202-217): append
one audit document of kind `center`, lower-case the prompt, and return the
first canned response whose trigger phrase is a substring, else the
fallback. -/
def ai_center (audit : List AIRequestDoc) (cmd : AICommand) :
    List AIRequestDoc × CenterResponse :=
  let audit' := audit ++ [⟨cmd.user_id, "center", [("prompt", cmd.prompt)]⟩]
  let p := pyLower cmd.prompt
  let resp :=
    if containsSub p "organiza a minha semana" then
      CenterResponse.plan weekPlanStr
    else if containsSub p "plano alimentar" || containsSub p "alimentar" then
      CenterResponse.mealPlan "Plano alimentar gerado para foco mental e energia estável."
    else if containsSub p "reformula" || containsSub p "prioridades" then
      CenterResponse.priorities ["1) Entregar proposta X", "2) Treino 45min", "3) Chamada com equipa"]
    else if containsSub p "revisão mensal" || containsSub p "revisao" then
      CenterResponse.review "Revisão mensal: progresso de 68% nos objetivos trimestrais. Sugestões: reforçar consistência em hábitos chave."
    else
      CenterResponse.message fallbackStr
  (audit', resp)

/-- Spec-side description of the matcher (§4.3 of the specification): an
ordered table of trigger-phrase groups with their canned responses, scanned
for the first group containing a matching phrase. -/
def centerTable : List (List String × CenterResponse) :=
  [(["organiza a minha semana"], CenterResponse.plan weekPlanStr),
   (["plano alimentar", "alimentar"],
    CenterResponse.mealPlan "Plano alimentar gerado para foco mental e energia estável."),
   (["reformula", "prioridades"],
    CenterResponse.priorities ["1) Entregar proposta X", "2) Treino 45min", "3) Chamada com equipa"]),
   (["revisão mensal", "revisao"],
    CenterResponse.review "Revisão mensal: progresso de 68% nos objetivos trimestrais. Sugestões: reforçar consistência em hábitos chave.")]

/-- Spec-side first-match scan over a trigger table, with fallback. -/
def firstMatch (p : String) : List (List String × CenterResponse) → CenterResponse
  | [] => CenterResponse.message fallbackStr
  | (phrases, resp) :: rest =>
      if phrases.any (fun ph => containsSub p ph) then resp else firstMatch p rest

/-! ### Helper lemmas -/

theorem getAssoc_setAssoc_self (l : Document) (k : String) (v : Val) :
    getAssoc (setAssoc l k v) k = some v := by
  induction l with
  | nil => simp [setAssoc, getAssoc]
  | cons kv rest ih =>
      by_cases h : kv.1 = k
      · simp [setAssoc, getAssoc, h]
      · simp [setAssoc, getAssoc, h, ih]

theorem getAssoc_setAssoc_ne (l : Document) {k k' : String} (v : Val)
    (h : k ≠ k') : getAssoc (setAssoc l k v) k' = getAssoc l k' := by
  induction l with
  | nil => simp [setAssoc, getAssoc, h]
  | cons kv rest ih =>
      by_cases hk : kv.1 = k
      · simp [setAssoc, getAssoc, hk, h]
      · simp only [setAssoc, hk, if_false, getAssoc]
        by_cases hk' : kv.1 = k'
        · simp [getAssoc, hk']
        · simp [getAssoc, hk', ih]

theorem setAssoc_eq_self_iff (l : Document) (k : String) (v : Val) :
    setAssoc l k v = l ↔ getAssoc l k = some v := by
  induction l with
  | nil => simp [setAssoc, getAssoc]
  | cons kv rest ih =>
      by_cases h : kv.1 = k
      · constructor
        · intro he
          simp only [setAssoc, h, if_true] at he
          have : (k, v) = kv := (List.cons.injEq _ _ _ _).mp he |>.1
          simp [getAssoc, h, ← this]
        · intro hg
          simp only [getAssoc, h, if_true] at hg
          simp only [setAssoc, h, if_true]
          cases kv with
          | mk k1 v1 =>
              simp only at h hg
              injection hg with hv
              simp [h, hv]
      · simp only [setAssoc, h, if_false, getAssoc, List.cons.injEq, true_and]
        exact ih

theorem setAssoc_of_not_mem (l : Document) (k : String) (v : Val)
    (h : k ∉ l.map Prod.fst) : setAssoc l k v = l ++ [(k, v)] := by
  induction l with
  | nil => rfl
  | cons kv rest ih =>
      simp only [List.map_cons, List.mem_cons, not_or] at h
      have hne : ¬ kv.1 = k := fun he => h.1 he.symm
      simp [setAssoc, hne, ih h.2]

theorem keys_setAssoc (l : Document) (k k' : String) (v : Val)
    (h : k' ∈ (setAssoc l k v).map Prod.fst) :
    k' = k ∨ k' ∈ l.map Prod.fst := by
  induction l with
  | nil => simp [setAssoc] at h; simp [h]
  | cons kv rest ih =>
      by_cases hk : kv.1 = k
      · simp only [setAssoc, hk, if_true, List.map_cons, List.mem_cons] at h
        rcases h with h | h
        · exact Or.inl h
        · exact Or.inr (by simp [h])
      · simp only [setAssoc, hk, if_false, List.map_cons, List.mem_cons] at h
        rcases h with h | h
        · exact Or.inr (by simp [h])
        · rcases ih h with h' | h'
          · exact Or.inl h'
          · exact Or.inr (by simp [h'])

theorem applySet_cons (f : Document) (kv : String × Val) (u : Document) :
    applySet f (kv :: u) = applySet (setAssoc f kv.1 kv.2) u := rfl

theorem applySet_append (f : Document) (u1 u2 : Document) :
    applySet f (u1 ++ u2) = applySet (applySet f u1) u2 := by
  simp [applySet, List.foldl_append]

theorem getAssoc_applySet_not_mem (u : Document) {k : String}
    (h : k ∉ u.map Prod.fst) :
    ∀ f : Document, getAssoc (applySet f u) k = getAssoc f k := by
  induction u with
  | nil => intro f; rfl
  | cons kv rest ih =>
      intro f
      simp only [List.map_cons, List.mem_cons, not_or] at h
      rw [applySet_cons, ih h.2, getAssoc_setAssoc_ne _ _ (fun he => h.1 he.symm)]

theorem getAssoc_appliedSet_updated_at (u : Document) (now : Int)
    (hu : "updated_at" ∉ u.map Prod.fst) (f : Document) :
    getAssoc (applySet f (appliedSet now u)) "updated_at" = some (Val.dt now) := by
  rw [appliedSet, setAssoc_of_not_mem u _ _ hu, applySet_append]
  rw [show applySet (applySet f u) [("updated_at", Val.dt now)]
      = setAssoc (applySet f u) "updated_at" (Val.dt now) from rfl]
  exact getAssoc_setAssoc_self _ _ _

theorem updateOne_snd_eq (doc_id : String) (u : Document) :
    ∀ coll : List StoredDoc,
      (updateOne doc_id u coll).2 =
        match findDoc coll doc_id with
        | none => 0
        | some d => if applySet d.fields u = d.fields then 0 else 1
  | [] => rfl
  | d :: rest => by
      by_cases hd : d.oid = doc_id
      · simp [updateOne, findDoc, hd]
      · simp [updateOne, findDoc, hd, updateOne_snd_eq doc_id u rest]

theorem updateOne_forall₂ (doc_id : String) (u : Document) :
    ∀ coll : List StoredDoc,
      List.Forall₂
        (fun d d' => d'.oid = d.oid ∧ (d' = d ∨ d'.fields = applySet d.fields u))
        coll (updateOne doc_id u coll).1
  | [] => List.Forall₂.nil
  | d :: rest => by
      by_cases hd : d.oid = doc_id
      · simp only [updateOne, hd, if_true]
        exact List.Forall₂.cons ⟨hd.symm, Or.inr rfl⟩
          (List.forall₂_same.mpr fun x _ => ⟨rfl, Or.inl rfl⟩)
      · simp only [updateOne, hd, if_false]
        exact List.Forall₂.cons ⟨rfl, Or.inl rfl⟩ (updateOne_forall₂ doc_id u rest)

theorem foldl_if_append {α β : Type} (p : α → Bool) (f : α → β) :
    ∀ (l : List α) (init : List β),
      l.foldl (fun acc c => if p c then acc ++ [f c] else acc) init
        = init ++ (l.filter p).map f
  | [], _ => by simp
  | a :: l, init => by
      cases ha : p a with
      | true => simp [ha, foldl_if_append p f l (init ++ [f a])]
      | false => simp [ha, foldl_if_append p f l init]

theorem keyLeB_refl (a : Int × Int) : keyLeB a a = true := by
  simp [keyLeB]

theorem keyLeB_total (a b : Int × Int) : keyLeB a b = true ∨ keyLeB b a = true := by
  simp only [keyLeB, Bool.or_eq_true, Bool.and_eq_true, decide_eq_true_eq]
  omega

theorem keyLeB_trans {a b c : Int × Int} (h1 : keyLeB a b = true)
    (h2 : keyLeB b c = true) : keyLeB a c = true := by
  simp only [keyLeB, Bool.or_eq_true, Bool.and_eq_true, decide_eq_true_eq] at *
  omega

instance : IsTotal TaskDoc taskGe :=
  ⟨fun a b => keyLeB_total (score b) (score a)⟩

instance : IsTrans TaskDoc taskGe :=
  ⟨fun _ _ _ h1 h2 => keyLeB_trans h2 h1⟩

theorem eventUpdateFields_keys (p : EventUpdate) :
    ∀ k ∈ (eventUpdateFields p).map Prod.fst,
      k = "start_time" ∨ k = "end_time" ∨ k = "title" ∨
      k = "location" ∨ k = "category" := by
  intro k hk
  obtain ⟨kv, hkv, rfl⟩ := List.mem_map.mp hk
  have h1 := (List.mem_filter.mp hkv).1
  simp only [EventUpdate.dumpPairs, List.mem_cons, List.not_mem_nil, or_false] at h1
  rcases h1 with h | h | h | h | h <;> simp [h]

theorem eventUpdateFields_no_null (p : EventUpdate) :
    ∀ kv ∈ eventUpdateFields p, kv.2 ≠ Val.null := by
  intro kv hkv
  have h2 := (List.mem_filter.mp hkv).2
  simpa using h2

theorem filter_prioritizedTasks (tasks : List TaskDoc) (k : Int × Int) :
    (prioritizedTasks tasks).filter (fun t => decide (score t = k))
      = tasks.filter (fun t => decide (score t = k)) := by
  set p : TaskDoc → Bool := fun t => decide (score t = k) with hp
  have hmemk : ∀ a ∈ tasks.filter p, score a = k := by
    intro a ha
    have := (List.mem_filter.mp ha).2
    simpa [hp] using this
  have hpair : (tasks.filter p).Pairwise taskGe := by
    refine List.pairwise_of_forall_mem_list ?_
    intro a ha b hb
    show keyLeB (score b) (score a) = true
    rw [hmemk a ha, hmemk b hb]
    exact keyLeB_refl k
  have hsub : List.Sublist (tasks.filter p) (List.insertionSort taskGe tasks) :=
    List.sublist_insertionSort hpair (List.filter_sublist tasks)
  have hself : (tasks.filter p).filter p = tasks.filter p :=
    List.filter_eq_self.mpr fun a ha => (List.mem_filter.mp ha).2
  have hsub2 : List.Sublist (tasks.filter p)
      ((List.insertionSort taskGe tasks).filter p) := by
    have := hsub.filter p
    rwa [hself] at this
  have hperm : List.Perm ((List.insertionSort taskGe tasks).filter p)
      (tasks.filter p) :=
    (List.perm_insertionSort taskGe tasks).filter p
  exact (hsub2.eq_of_length hperm.length_eq.symm).symm

theorem find_setCollAux :
    ∀ (l : List (String × List StoredDoc)) (name : String) (c : List StoredDoc),
      (setCollAux l name c).find? (fun e => e.1 = name) = some (name, c)
  | [], name, c => by simp [setCollAux]
  | (k', c') :: rest, name, c => by
      by_cases h : k' = name
      · simp [setCollAux, h]
      · simp [setCollAux, h, find_setCollAux rest name c]

theorem getColl_setColl_self (s : Store) (name : String) (c : List StoredDoc) :
    getColl (setColl s name c) name = c := by
  simp [getColl, setColl, find_setCollAux]

theorem update_event_ok (s : Store) (now : Int) (event_id : String)
    (p : EventUpdate) :
    update_event (some s) now event_id p
      = .ok (setColl s "event"
              (updateOne event_id (appliedSet now (eventUpdateFields p))
                (getColl s "event")).1,
             if (updateOne event_id (appliedSet now (eventUpdateFields p))
                  (getColl s "event")).2 = 0
             then UpdResult.notFound else UpdResult.ok event_id) := rfl

/-! ### Claim theorems -/

/-- C1: evaluation of the prioritize sort key at a failing input.  For two
incomplete tasks of equal priority, one due 2026-10-13 and one with no due
date, `ai_prioritize` returns the task WITHOUT a due date first: its
secondary weight is `0`, while the due-dated task's secondary weight
`9999999 - epoch` is negative for every modern date (epoch seconds exceed
9999999 from 1970-04-26 on).  This contradicts the claim that a task
without a due date gets the lowest possible secondary weight and that every
due-dated task ranks at or above equal-priority tasks without one: the
constant 9999999 is too small for the intended inversion. -/
theorem C1_no_due_date_outranks_due_date :
    ai_prioritize
        [⟨"1", "due", some "high", some ⟨2026, 10, 13⟩⟩,
         ⟨"2", "nodue", some "high", none⟩]
      = [⟨"2", "nodue", some "high", none⟩,
         ⟨"1", "due", some "high", some ⟨2026, 10, 13⟩⟩]
    ∧ (score ⟨"1", "due", some "high", some ⟨2026, 10, 13⟩⟩).1
        = (score ⟨"2", "nodue", some "high", none⟩).1
    ∧ (score ⟨"1", "due", some "high", some ⟨2026, 10, 13⟩⟩).2
        < (score ⟨"2", "nodue", some "high", none⟩).2 := by
  refine ⟨by decide, by decide, by decide⟩

/-- C3 counterexample: with the store connection never established
(`db = None`), the login flow does NOT fail with the store-unavailable
error: it completes normally, touching no store, and returns a successful
response derived from the payload alone. -/
theorem C3_counterexample_login_succeeds_without_store :
    login none 0 0 "u1" ⟨"ana@example.com", none⟩
      = (none, ⟨"ana@example.com", "ana@example.com", "ana"⟩) := by
  decide

/-- C3 (amended): when the store connection was never established, the three
data-layer operations `create_document`, `get_documents` and
`update_document` each fail immediately with the distinguishable
store-unavailable error; the login flow, however, guards both its read and
its create on store availability and instead proceeds: it reads nothing,
creates nothing, and returns a successful response whose name falls back to
the payload name or the email's local part. -/
theorem C3_store_unavailable_fails_data_ops_but_not_login
    (t1 t2 now : Int) (newId cn doc_id : String) (data u filt : Document)
    (lim : Option Nat) (payload : LoginRequest) :
    create_document none t1 t2 newId cn data = .error .storeUnavailable
    ∧ get_documents none cn filt lim = .error .storeUnavailable
    ∧ update_document none now cn doc_id u = .error .storeUnavailable
    ∧ login none t1 t2 newId payload
        = (none, ⟨payload.email, payload.email,
            pyOrStr payload.name (emailLocal payload.email)⟩) :=
  ⟨rfl, rfl, rfl, rfl⟩

/-- C5: prioritization orders by the priority-weight mapping
`{urgent: 4, high: 3, medium: 2, low: 1}` — case-insensitively, with unknown,
missing and empty priorities defaulting to 2 — and then by due-date recency:
on the fetched list [{urgent, due 2026-10-12}, {low, due 2026-10-13},
{urgent, due 2026-10-13}] the returned order places both urgent tasks before
the low one and the urgent-due-today before the urgent-due-tomorrow. -/
theorem C5_priority_weights_and_concrete_ordering :
    ai_prioritize
        [⟨"1", "urgent today", some "urgent", some ⟨2026, 10, 12⟩⟩,
         ⟨"2", "low tomorrow", some "low", some ⟨2026, 10, 13⟩⟩,
         ⟨"3", "urgent tomorrow", some "urgent", some ⟨2026, 10, 13⟩⟩]
      = [⟨"1", "urgent today", some "urgent", some ⟨2026, 10, 12⟩⟩,
         ⟨"3", "urgent tomorrow", some "urgent", some ⟨2026, 10, 13⟩⟩,
         ⟨"2", "low tomorrow", some "low", some ⟨2026, 10, 13⟩⟩]
    ∧ (score ⟨"", "", some "URGENT", none⟩).1 = 4
    ∧ (score ⟨"", "", some "HiGh", none⟩).1 = 3
    ∧ (score ⟨"", "", some "MEDIUM", none⟩).1 = 2
    ∧ (score ⟨"", "", some "Low", none⟩).1 = 1
    ∧ (score ⟨"", "", none, none⟩).1 = 2
    ∧ (score ⟨"", "", some "whenever", none⟩).1 = 2
    ∧ (score ⟨"", "", some "", none⟩).1 = 2 := by
  refine ⟨by decide, by decide, by decide, by decide, by decide, by decide,
    by decide, by decide⟩

/-- C6: the dashboard alerts are exactly one birthday alert per contact
whose birthday's month and day match the current date, followed by exactly
one deadline alert per fetched task whose due date equals the current date
(contact alerts before task alerts, in scan order), truncated to the first
5; in particular the returned alerts list never exceeds 5 entries. -/
theorem C6_dashboard_alerts (today : PDate) (tasks : List TaskDoc)
    (events habits : List Document) (health_today : List HealthDoc)
    (contacts : List ContactDoc) :
    (dashboard today tasks events habits health_today contacts).alerts
      = (((contacts.filter (birthdayToday today)).map
            (fun c => Alert.birthday c.name))
          ++ ((tasks.filter (dueToday today)).map
            (fun t => Alert.deadline t.title))).take 5
    ∧ (dashboard today tasks events habits health_today contacts).alerts.length
        ≤ 5 := by
  have halerts : (dashboard today tasks events habits health_today contacts).alerts
      = (tasks.foldl
          (fun acc t => if dueToday today t then acc ++ [Alert.deadline t.title] else acc)
          (contacts.foldl
            (fun acc c => if birthdayToday today c then acc ++ [Alert.birthday c.name] else acc)
            [])).take 5 := rfl
  constructor
  · rw [halerts, foldl_if_append, foldl_if_append]
    simp
  · rw [halerts, List.length_take]
    exact Nat.min_le_left _ _

/-- C7: the dashboard energy value is the `value` field of the last
energy-type health-log record in the store-returned list, and is the fixed
default 70 when that list is empty. -/
theorem C7_dashboard_energy (today : PDate) (tasks : List TaskDoc)
    (events habits : List Document) (health_today : List HealthDoc)
    (contacts : List ContactDoc) :
    (health_today = [] →
      (dashboard today tasks events habits health_today contacts).energy
        = Val.int 70)
    ∧ (∀ h, health_today.getLast? = some h →
        (dashboard today tasks events habits health_today contacts).energy
          = h.value) := by
  constructor
  · intro he
    subst he
    rfl
  · intro h hh
    show (match health_today.getLast? with
          | some h => h.value
          | none => Val.int 70) = h.value
    rw [hh]

/-- C7 witness: with no energy logs the dashboard energy is 70; with logs
[55, 41] it is the last value 41. -/
theorem C7_witness :
    (dashboard ⟨2026, 10, 12⟩ [] [] [] [] []).energy = Val.int 70
    ∧ (dashboard ⟨2026, 10, 12⟩ [] [] []
        [⟨Val.int 55⟩, ⟨Val.int 41⟩] []).energy = Val.int 41 :=
  ⟨(C7_dashboard_energy ⟨2026, 10, 12⟩ [] [] [] [] []).1 rfl,
   (C7_dashboard_energy ⟨2026, 10, 12⟩ [] [] [] [⟨Val.int 55⟩, ⟨Val.int 41⟩] []).2
     ⟨Val.int 41⟩ (by decide)⟩

/-- C8: every `/ai/center` invocation appends exactly one AIRequest audit
document of kind `center` (matched or not); the response is the first-match
scan of the lower-cased prompt over the fixed ordered trigger table, with
the generic fallback when nothing matches; and in particular the prompt
"organiza a minha semana" yields the canned week-reorganization plan
string. -/
theorem C8_ai_center_first_match_and_audit (audit : List AIRequestDoc)
    (cmd : AICommand) :
    (ai_center audit cmd).1
      = audit ++ [⟨cmd.user_id, "center", [("prompt", cmd.prompt)]⟩]
    ∧ (ai_center audit cmd).2 = firstMatch (pyLower cmd.prompt) centerTable
    ∧ (ai_center audit ⟨cmd.user_id, "organiza a minha semana"⟩).2
        = CenterResponse.plan weekPlanStr
    ∧ (ai_center audit ⟨cmd.user_id, "bom dia"⟩).2
        = CenterResponse.message fallbackStr := by
  refine ⟨rfl, ?_, rfl, rfl⟩
  show (ai_center audit cmd).2 = firstMatch (pyLower cmd.prompt) centerTable
  simp only [ai_center, firstMatch, centerTable, List.any_cons, List.any_nil,
    Bool.or_false]

/-- C9: `ai_prioritize` returns the first 7 entries of the descending sort
(so at most 7 results), the sort is descending by the (primary, secondary)
key under the total preorder `taskGe`, it is a permutation of the fetched
list, and it is stable: for every key value, the tasks carrying exactly
that sort key appear in their original fetch order. -/
theorem C9_prioritize_top7_sorted_stable (tasks : List TaskDoc)
    (k : Int × Int) :
    ai_prioritize tasks = ((prioritizedTasks tasks).take 7).map projTask
    ∧ (ai_prioritize tasks).length ≤ 7
    ∧ List.Sorted taskGe (prioritizedTasks tasks)
    ∧ List.Perm (prioritizedTasks tasks) tasks
    ∧ (prioritizedTasks tasks).filter (fun t => decide (score t = k))
        = tasks.filter (fun t => decide (score t = k)) := by
  refine ⟨rfl, ?_, List.sorted_insertionSort taskGe tasks,
    List.perm_insertionSort taskGe tasks, filter_prioritizedTasks tasks k⟩
  rw [ai_prioritize, List.length_map, List.length_take]
  exact Nat.min_le_left _ _

/-- C2 counterexample: an update of an existing event that changes no
caller-provided field does NOT return 0: `update_document` always injects a
fresh `updated_at` into the applied set, so with the stored `updated_at`
differing from the current clock read the modified count is 1 (and the
handler answers OK, not the 404 signal). -/
theorem C2_counterexample_noop_update_returns_one :
    update_document
        (some ⟨[("event",
          [⟨"e1", [("title", Val.str "T"), ("updated_at", Val.dt 0)]⟩])]⟩)
        5 "event" "e1" (eventUpdateFields EventUpdate.allNone)
      = .ok (⟨[("event",
          [⟨"e1", [("title", Val.str "T"), ("updated_at", Val.dt 5)]⟩])]⟩, 1) := rfl

/-- C2 (amended): the modified count is 0 exactly when no document matched
the id or no field of the applied update set — which always includes the
refreshed `updated_at` — actually changed value; the PATCH handler returns
the 404-equivalent not-found/unchanged signal exactly when that count is 0
and never raises; and an update of an existing event with no caller-provided
fields returns 1, not 0, whenever the stored `updated_at` differs from the
refreshed one. -/
theorem C2_update_zero_iff_nothing_changed (now : Int) (coll : List StoredDoc)
    (doc_id : String) (u : Document) (s : Store) (p : EventUpdate) :
    ((updateOne doc_id (appliedSet now u) coll).2 = 0 ↔
      ∀ d, findDoc coll doc_id = some d →
        applySet d.fields (appliedSet now u) = d.fields)
    ∧ update_event (some s) now doc_id p
        = .ok (setColl s "event"
                (updateOne doc_id (appliedSet now (eventUpdateFields p))
                  (getColl s "event")).1,
               if (updateOne doc_id (appliedSet now (eventUpdateFields p))
                    (getColl s "event")).2 = 0
               then UpdResult.notFound else UpdResult.ok doc_id)
    ∧ (∀ d, findDoc coll doc_id = some d →
        getAssoc d.fields "updated_at" ≠ some (Val.dt now) →
        (updateOne doc_id
          (appliedSet now (eventUpdateFields EventUpdate.allNone)) coll).2 = 1) := by
  refine ⟨?_, update_event_ok s now doc_id p, ?_⟩
  · rw [updateOne_snd_eq]
    cases hf : findDoc coll doc_id with
    | none => simp
    | some d =>
        by_cases happ : applySet d.fields (appliedSet now u) = d.fields
        · simp [happ]
        · simp [happ]
  · intro d hd hne
    rw [updateOne_snd_eq, hd]
    have heq : applySet d.fields (appliedSet now (eventUpdateFields EventUpdate.allNone))
        = setAssoc d.fields "updated_at" (Val.dt now) := rfl
    have hno : ¬ setAssoc d.fields "updated_at" (Val.dt now) = d.fields :=
      fun he => hne ((setAssoc_eq_self_iff _ _ _).mp he)
    simp [heq, hno]

/-- C2 witness: on a one-event store with stored `updated_at` = 0 and clock
read 5, the all-null PATCH payload yields modified count 1. -/
theorem C2_witness :
    (updateOne "e1" (appliedSet 5 (eventUpdateFields EventUpdate.allNone))
        [⟨"e1", [("title", Val.str "T"), ("updated_at", Val.dt 0)]⟩]).2 = 1 :=
  (C2_update_zero_iff_nothing_changed 5
      [⟨"e1", [("title", Val.str "T"), ("updated_at", Val.dt 0)]⟩] "e1" []
      ⟨[]⟩ EventUpdate.allNone).2.2
    ⟨"e1", [("title", Val.str "T"), ("updated_at", Val.dt 0)]⟩ rfl (by decide)

/-- C4 counterexample: `create_document` reads the clock once for
`created_at` and again for `updated_at`; with the two reads 0 and 1 the
stamped values differ, so `created_at == updated_at` is not guaranteed at
insert time. -/
theorem C4_counterexample_created_ne_updated :
    getAssoc (create_document_fields 0 1 []) "created_at" = some (Val.dt 0)
    ∧ getAssoc (create_document_fields 0 1 []) "updated_at" = some (Val.dt 1)
    ∧ getAssoc (create_document_fields 0 1 []) "created_at"
        ≠ getAssoc (create_document_fields 0 1 []) "updated_at" :=
  ⟨by decide, by decide, by decide⟩

/-- C4 (amended): at insert time `created_at` and `updated_at` are stamped
from two successive clock reads, so `created_at ≤ updated_at` (equal exactly
when the reads coincide); every update whose update dict mentions neither
timestamp key — as is the case for every PATCH /events payload — leaves
`created_at` of every stored document unchanged and sets the modified
document's `updated_at` to the update-time clock read. -/
theorem C4_timestamps_amended (t1 t2 : Int) (data : Document) (h : t1 ≤ t2)
    (now : Int) (coll : List StoredDoc) (doc_id : String) (u : Document)
    (hc : "created_at" ∉ u.map Prod.fst)
    (hu : "updated_at" ∉ u.map Prod.fst) :
    (∃ tc tu : Int,
      getAssoc (create_document_fields t1 t2 data) "created_at" = some (Val.dt tc)
      ∧ getAssoc (create_document_fields t1 t2 data) "updated_at" = some (Val.dt tu)
      ∧ tc ≤ tu)
    ∧ List.Forall₂
        (fun d d' => getAssoc d'.fields "created_at" = getAssoc d.fields "created_at")
        coll (updateOne doc_id (appliedSet now u) coll).1
    ∧ List.Forall₂
        (fun d d' => d' = d ∨ getAssoc d'.fields "updated_at" = some (Val.dt now))
        coll (updateOne doc_id (appliedSet now u) coll).1
    ∧ (∀ p : EventUpdate,
        "created_at" ∉ (eventUpdateFields p).map Prod.fst
        ∧ "updated_at" ∉ (eventUpdateFields p).map Prod.fst) := by
  refine ⟨⟨t1, t2, ?_, getAssoc_setAssoc_self _ _ _, h⟩, ?_, ?_, ?_⟩
  · rw [create_document_fields, getAssoc_setAssoc_ne _ _ (by decide)]
    exact getAssoc_setAssoc_self _ _ _
  · refine List.Forall₂.imp ?_ (updateOne_forall₂ doc_id (appliedSet now u) coll)
    intro d d' hdd
    rcases hdd.2 with h2 | h2
    · rw [h2]
    · rw [h2]
      refine getAssoc_applySet_not_mem _ ?_ _
      intro hmem
      rcases keys_setAssoc u "updated_at" "created_at" (Val.dt now) hmem with h' | h'
      · exact absurd h' (by decide)
      · exact hc h'
  · refine List.Forall₂.imp ?_ (updateOne_forall₂ doc_id (appliedSet now u) coll)
    intro d d' hdd
    rcases hdd.2 with h2 | h2
    · exact Or.inl h2
    · exact Or.inr (h2 ▸ getAssoc_appliedSet_updated_at u now hu d.fields)
  · intro p
    constructor
    · intro hmem
      rcases eventUpdateFields_keys p _ hmem with h' | h' | h' | h' | h' <;>
        exact absurd h' (by decide)
    · intro hmem
      rcases eventUpdateFields_keys p _ hmem with h' | h' | h' | h' | h' <;>
        exact absurd h' (by decide)

/-- C4 witness: clock reads 2 then 3 at insert give created_at 2 ≤
updated_at 3, and a title-only update at clock read 9 preserves the stored
created_at. -/
theorem C4_witness :
    (∃ tc tu : Int,
      getAssoc (create_document_fields 2 3 []) "created_at" = some (Val.dt tc)
      ∧ getAssoc (create_document_fields 2 3 []) "updated_at" = some (Val.dt tu)
      ∧ tc ≤ tu)
    ∧ List.Forall₂
        (fun d d' : StoredDoc =>
          getAssoc d'.fields "created_at" = getAssoc d.fields "created_at")
        [⟨"e1", [("created_at", Val.dt 1), ("updated_at", Val.dt 1)]⟩]
        (updateOne "e1" (appliedSet 9 [("title", Val.str "x")])
          [⟨"e1", [("created_at", Val.dt 1), ("updated_at", Val.dt 1)]⟩]).1 :=
  ⟨(C4_timestamps_amended 2 3 [] (by decide) 9
      [⟨"e1", [("created_at", Val.dt 1), ("updated_at", Val.dt 1)]⟩] "e1"
      [("title", Val.str "x")] (by decide) (by decide)).1,
   (C4_timestamps_amended 2 3 [] (by decide) 9
      [⟨"e1", [("created_at", Val.dt 1), ("updated_at", Val.dt 1)]⟩] "e1"
      [("title", Val.str "x")] (by decide) (by decide)).2.1⟩

/-- C10: the PATCH /events handler drops every null payload field before
calling the store update (null is never among the written values); every
stored field other than the non-null payload fields and `updated_at` is
preserved by the update; the all-null payload produces an empty update dict;
and under the all-null payload the matched document changes in nothing but
`updated_at`. -/
theorem C10_patch_null_dropping (now : Int) (s : Store) (event_id : String)
    (p : EventUpdate) :
    (∀ kv ∈ eventUpdateFields p, kv.2 ≠ Val.null)
    ∧ (∀ s' r, update_event (some s) now event_id p = .ok (s', r) →
        List.Forall₂ (fun d d' => d'.oid = d.oid ∧
            ∀ k, k ∉ (eventUpdateFields p).map Prod.fst → k ≠ "updated_at" →
              getAssoc d'.fields k = getAssoc d.fields k)
          (getColl s "event") (getColl s' "event"))
    ∧ eventUpdateFields EventUpdate.allNone = []
    ∧ (∀ s' r, update_event (some s) now event_id EventUpdate.allNone = .ok (s', r) →
        List.Forall₂
          (fun d d' => d' = d ∨
            d'.fields = setAssoc d.fields "updated_at" (Val.dt now))
          (getColl s "event") (getColl s' "event")) := by
  refine ⟨eventUpdateFields_no_null p, ?_, rfl, ?_⟩
  · intro s' r hok
    rw [update_event_ok] at hok
    injection hok with h1
    injection h1 with hs' hr
    subst hs'
    rw [getColl_setColl_self]
    refine List.Forall₂.imp ?_
      (updateOne_forall₂ event_id (appliedSet now (eventUpdateFields p))
        (getColl s "event"))
    intro d d' hdd
    refine ⟨hdd.1, ?_⟩
    intro k hk hwk
    rcases hdd.2 with h2 | h2
    · rw [h2]
    · rw [h2]
      refine getAssoc_applySet_not_mem _ ?_ _
      intro hmem
      rcases keys_setAssoc (eventUpdateFields p) "updated_at" k (Val.dt now) hmem
        with h' | h'
      · exact hwk h'
      · exact hk h'
  · intro s' r hok
    rw [update_event_ok] at hok
    injection hok with h1
    injection h1 with hs' hr
    subst hs'
    rw [getColl_setColl_self]
    refine List.Forall₂.imp ?_
      (updateOne_forall₂ event_id (appliedSet now (eventUpdateFields EventUpdate.allNone))
        (getColl s "event"))
    intro d d' hdd
    rcases hdd.2 with h2 | h2
    · exact Or.inl h2
    · exact Or.inr h2

/-- C10 witness: on a one-event store, a title-only PATCH at clock read 7
preserves the unrelated stored fields, the written value is non-null, and
the all-null PATCH changes nothing but `updated_at`. -/
theorem C10_witness :
    (Val.str "new" ≠ Val.null)
    ∧ List.Forall₂ (fun d d' : StoredDoc => d'.oid = d.oid ∧
        ∀ k, k ∉ (eventUpdateFields ⟨none, none, some "new", none, none⟩).map Prod.fst →
          k ≠ "updated_at" → getAssoc d'.fields k = getAssoc d.fields k)
        (getColl ⟨[("event",
          [⟨"e1", [("title", Val.str "old"), ("updated_at", Val.dt 0)]⟩])]⟩ "event")
        (getColl ⟨[("event",
          [⟨"e1", [("title", Val.str "new"), ("updated_at", Val.dt 7)]⟩])]⟩ "event")
    ∧ List.Forall₂
        (fun d d' : StoredDoc =>
          d' = d ∨ d'.fields = setAssoc d.fields "updated_at" (Val.dt 7))
        (getColl ⟨[("event",
          [⟨"e1", [("title", Val.str "old"), ("updated_at", Val.dt 0)]⟩])]⟩ "event")
        (getColl ⟨[("event",
          [⟨"e1", [("title", Val.str "old"), ("updated_at", Val.dt 7)]⟩])]⟩ "event") :=
  ⟨(C10_patch_null_dropping 7
      ⟨[("event", [⟨"e1", [("title", Val.str "old"), ("updated_at", Val.dt 0)]⟩])]⟩
      "e1" ⟨none, none, some "new", none, none⟩).1
      ("title", Val.str "new") (by decide),
   (C10_patch_null_dropping 7
      ⟨[("event", [⟨"e1", [("title", Val.str "old"), ("updated_at", Val.dt 0)]⟩])]⟩
      "e1" ⟨none, none, some "new", none, none⟩).2.1
      ⟨[("event", [⟨"e1", [("title", Val.str "new"), ("updated_at", Val.dt 7)]⟩])]⟩
      (UpdResult.ok "e1") rfl,
   (C10_patch_null_dropping 7
      ⟨[("event", [⟨"e1", [("title", Val.str "old"), ("updated_at", Val.dt 0)]⟩])]⟩
      "e1" ⟨none, none, some "new", none, none⟩).2.2.2
      ⟨[("event", [⟨"e1", [("title", Val.str "old"), ("updated_at", Val.dt 7)]⟩])]⟩
      (UpdResult.ok "e1") rfl⟩

end Gestor
